import Mathlib

/-!
# jjj synchronization engine: shallow embedding and verification

This file embeds the core of the `jjj` VS Code extension (a debounced
auto-commit/auto-push synchronization engine over the `jj` VCS) in Lean 4
and settles the stated properties of its specification against the code.

Embedded components (each definition's doc comment names the source):
* `ConflictDetector` (`detectConflictsInContent`, `hasConflictMarkers`)
* the error classifier (`parseJJError` in `utils/errorHandler.ts`)
* `AutoPullService.pull` / its error handler
* `SyncEngine.performFullSync` / `handleSyncError`
* `AutoCommitService.queueChange` / `processQueue` / `handleError`
* `TimerScheduler.scheduleOnce` and the one-shot fire path

Status values: the source represents `SyncState` by Japanese string
literals (`src/types/index.ts`); we embed them as an inductive type, one
constructor per literal.
-/

namespace Jjj

/-- `SyncState` from `src/types/index.ts`.  One constructor per string literal:
`notApplicable` = `'対象外'`, `enabled` = `'有効'`, `offline` = `'オフライン'`,
`syncing` = `'同期中'`, `syncComplete` = `'同期完了'`,
`syncCompleteWithConflicts` = `'同期完了（コンフリクトあり）'`,
`localOnly` = `'ローカルのみ'`. -/
inductive SyncState where
  | notApplicable
  | enabled
  | offline
  | syncing
  | syncComplete
  | syncCompleteWithConflicts
  | localOnly
deriving DecidableEq, Repr

/-- `JJErrorType` from `src/types/index.ts`. -/
inductive JJErrorType where
  | JJ_NOT_FOUND
  | NETWORK_ERROR
  | REMOTE_CHANGED
  | CONFLICT
  | AUTH_ERROR
  | UNKNOWN
deriving DecidableEq, Repr

/-- `JJError` from `src/types/index.ts` (`type` and `message` fields). -/
structure JJError where
  type : JJErrorType
  message : String
deriving DecidableEq, Repr

/-! ## Conflict scanner (`src/core/conflictDetector.ts`) -/

/-- `ConflictInfo` from `src/types/index.ts`: `{ filePath, startLine, endLine }`,
1-based line numbers.  `startLine` is `Int` because the scanner initialises its
`startLine` local to the sentinel `-1`. -/
structure ConflictInfo where
  filePath : String
  startLine : Int
  endLine : Int
deriving DecidableEq, Repr

/-- Embeds JavaScript `content.split('\n')` on the character list: splits at
every `'\n'`, keeping empty segments, and always returns at least one line. -/
def splitLinesAux : List Char → List Char → List (List Char)
  | [], acc => [acc.reverse]
  | c :: rest, acc =>
      if c = '\n' then acc.reverse :: splitLinesAux rest []
      else splitLinesAux rest (c :: acc)

/-- The lines of `content`, as in `content.split('\n')`. -/
def splitLines (content : String) : List (List Char) :=
  splitLinesAux content.data []

/-- Loop body of `ConflictDetector.detectConflictsInContent`
(`lines.forEach` with the `inConflict` / `startLine` mutable state):
a line whose first seven characters are `<<<<<<<` opens a region
(`startLine := index + 1`), and a line whose first seven characters are
`>>>>>>>` while `inConflict` holds closes it, emitting a `ConflictInfo`. -/
def detectAux (filePath : String) :
    List (List Char) → Nat → Bool → Int → List ConflictInfo
  | [], _, _, _ => []
  | line :: rest, index, inConflict, startLine =>
      if ("<<<<<<<".data).isPrefixOf line then
        detectAux filePath rest (index + 1) true ((index : Int) + 1)
      else if ((">>>>>>>".data).isPrefixOf line) && inConflict then
        ⟨filePath, startLine, (index : Int) + 1⟩ ::
          detectAux filePath rest (index + 1) false startLine
      else
        detectAux filePath rest (index + 1) inConflict startLine

/-- `ConflictDetector.detectConflictsInContent(filePath, content)`. -/
def detectConflictsInContent (filePath content : String) : List ConflictInfo :=
  detectAux filePath (splitLines content) 0 false (-1)

/-- The ASCII part of the JavaScript regex class `\s` (space, tab, newline,
carriage return, vertical tab, form feed).  All marker glyphs and the inputs
considered here are ASCII, so the Unicode space characters of `\s` do not
arise. -/
def isJsSpace (c : Char) : Bool :=
  c = ' ' || c = '\t' || c = '\n' || c = '\r' || c = '\x0b' || c = '\x0c'

/-- Whether a line starts with one of the three seven-glyph conflict markers
(`<<<<<<<`, `=======`, `>>>>>>>`). -/
def sevenGlyph (line : List Char) : Bool :=
  ("<<<<<<<".data).isPrefixOf line || ("=======".data).isPrefixOf line ||
    (">>>>>>>".data).isPrefixOf line

/-- One multiline-anchored match attempt of the regex
`/^<{7}\s|^={7}\s|^>{7}\s/m` at the start of `line`: seven marker glyphs
followed by a `\s` character.  When the line is exactly the seven glyphs, the
`\s` can only be the `'\n'` separating it from a following line, so a bare
marker line matches iff it is not the last line (`isLast`). -/
def lineMatches (line : List Char) (isLast : Bool) : Bool :=
  sevenGlyph line &&
    (match line.drop 7 with
     | [] => !isLast
     | c :: _ => isJsSpace c)

/-- Helper for `hasConflictMarkers`: does any line match, where only the final
line of the split is flagged as last? -/
def hasMarkersAux : List (List Char) → Bool
  | [] => false
  | [line] => lineMatches line true
  | line :: rest => lineMatches line false || hasMarkersAux rest

/-- `ConflictDetector.hasConflictMarkers(content)`: the test
`/^<{7}\s|^={7}\s|^>{7}\s/m.test(content)`. -/
def hasConflictMarkers (content : String) : Bool :=
  hasMarkersAux (splitLines content)

/-! ## Error classifier (`src/utils/errorHandler.ts`) -/

/-- JavaScript `hay.includes(pat)`: `pat` occurs contiguously in `hay`
(case-sensitive, and every string includes the empty string). -/
def containsSub (pat : List Char) : List Char → Bool
  | [] => pat.isEmpty
  | c :: rest => pat.isPrefixOf (c :: rest) || containsSub pat rest

/-- `message.includes(pattern)` on strings. -/
def includes (message pattern : String) : Bool :=
  containsSub pattern.data message.data

/-- `parseJJError` from `src/utils/errorHandler.ts`, applied to the failure
text it extracts (`error.message || error.stderr || error.toString()`).
The substring patterns are matched verbatim, in this order. -/
def parseJJError (message : String) : JJError :=
  if includes message "command not found" || includes message "not recognized" then
    ⟨.JJ_NOT_FOUND, "jjコマンドが見つかりません。jujutsuがインストールされているか確認してください。"⟩
  else if includes message "Connection refused" || includes message "timeout" ||
      includes message "network" || includes message "Could not resolve host" then
    ⟨.NETWORK_ERROR, "ネットワークエラーが発生しました。接続を確認してください。"⟩
  else if includes message "remote has new commits" || includes message "rejected" ||
      includes message "non-fast-forward" then
    ⟨.REMOTE_CHANGED, "リモートに新しい変更があります。"⟩
  else if includes message "conflict" || includes message "CONFLICT" then
    ⟨.CONFLICT, "コンフリクトが発生しました。"⟩
  else if includes message "authentication failed" || includes message "Permission denied" ||
      includes message "fatal: could not read" then
    ⟨.AUTH_ERROR, "認証に失敗しました。認証情報を確認してください。"⟩
  else
    ⟨.UNKNOWN, message⟩

/-- JavaScript `s.toLowerCase()` for the ASCII inputs considered here:
maps each character with `Char.toLower` (which lowers exactly `'A'`–`'Z'`). -/
def jsToLowerCase (s : String) : String :=
  ⟨s.data.map Char.toLower⟩

/-- `isConflictError` from `src/utils/errorHandler.ts`. -/
def isConflictError (e : JJError) : Bool := e.type = .CONFLICT

/-- `isNetworkError` from `src/utils/errorHandler.ts`. -/
def isNetworkError (e : JJError) : Bool := e.type = .NETWORK_ERROR

/-- `isRemoteChangedError` from `src/utils/errorHandler.ts`. -/
def isRemoteChangedError (e : JJError) : Bool := e.type = .REMOTE_CHANGED

/-! ## Remote poller (`src/services/autoPull.ts`)

`AutoPullService.pull()` awaits `jjManager.fetch()`, then
`jjManager.hasRemoteChanges()`, then `jjManager.merge()`.  In `JJManager`
(`src/core/jjManager.ts`), `fetch` and `merge` rethrow `parseJJError(error)`
on failure while `hasRemoteChanges` catches internally and returns a boolean,
so the behaviour of one `pull()` call is a function of: the fetch outcome, the
remote-changes flag, and the merge outcome. -/

/-- Outcomes of the `JJManager` calls made by one `AutoPullService.pull()`:
`none` means the await resolved, `some e` that it threw the classified
`JJError e`. -/
structure PullOutcomes where
  fetchRes : Option JJError
  hasRemoteChanges : Bool
  mergeRes : Option JJError

/-- `AutoPullService.handleError` (the `catch` branch of `pull()`): `Conflict`
→ `syncCompleteWithConflicts`; `NETWORK_ERROR` → `offline`; anything else
→ `offline` (with a logged unexpected-error note).  Returns the status-bar
state it sets. -/
def pullHandleError (e : JJError) : SyncState :=
  if isConflictError e then .syncCompleteWithConflicts
  else if e.type = .NETWORK_ERROR then .offline
  else .offline

/-- One `AutoPullService.pull()` call from status-bar state `st`: the
status-bar state after the call.  A no-op pull (no remote changes) leaves the
state untouched; a successful merge sets `enabled` (`'有効'`); every failure
goes through `pullHandleError`. -/
def pull (o : PullOutcomes) (st : SyncState) : SyncState :=
  match o.fetchRes with
  | some e => pullHandleError e
  | none =>
      if !o.hasRemoteChanges then st
      else
        match o.mergeRes with
        | some e => pullHandleError e
        | none => .enabled

/-! ## Sync orchestrator (`src/core/syncEngine.ts`)

`SyncEngine.performFullSync()` runs (under the sync lock):
`hasUncommittedChanges` (never throws) → `setState('syncing')` → `commit` →
`fetch` → `hasRemoteChanges` (never throws) → `merge` if behind → `push`,
with a `catch` delegating to `handleSyncError` and a `finally` that releases
the lock and then calls `setState('enabled')`.  We record the chronological
list of `statusBar.setState` arguments of one call. -/

/-- Outcomes of the `JJManager` calls made by one `performFullSync()` call. -/
structure FullSyncOutcomes where
  hasUncommittedChanges : Bool
  commitRes : Option JJError
  fetchRes : Option JJError
  hasRemoteChanges : Bool
  mergeRes : Option JJError
  pushRes : Option JJError

/-- `SyncEngine.handleSyncError`: the `setState` calls it makes
(`NETWORK_ERROR` → `offline`; `CONFLICT` → `syncCompleteWithConflicts`;
`AUTH_ERROR` and the default branch only notify). -/
def handleSyncError (e : JJError) : List SyncState :=
  if e.type = .NETWORK_ERROR then [.offline]
  else if e.type = .CONFLICT then [.syncCompleteWithConflicts]
  else if e.type = .AUTH_ERROR then []
  else []

/-- The `setState` calls of the `try` block of `performFullSync` after the
initial `syncing`, ending at the first thrown error. -/
def fullSyncBody (o : FullSyncOutcomes) : List SyncState :=
  match o.commitRes with
  | some e => handleSyncError e
  | none =>
      match o.fetchRes with
      | some e => handleSyncError e
      | none =>
          match (if o.hasRemoteChanges then o.mergeRes else none) with
          | some e => handleSyncError e
          | none =>
              match o.pushRes with
              | some e => handleSyncError e
              | none => []

/-- `SyncEngine.performFullSync()`: the chronological list of
`statusBar.setState` arguments of one call.  The `finally` block always
appends `enabled` — also on the early no-changes return and after
`handleSyncError`. -/
def performFullSync (o : FullSyncOutcomes) : List SyncState :=
  if !o.hasUncommittedChanges then [.enabled]
  else .syncing :: fullSyncBody o ++ [.enabled]

/-- The first error thrown inside the `try` block of `performFullSync`
(given that there are uncommitted changes): commit, then fetch, then merge
(only when behind), then push. -/
def fullSyncError (o : FullSyncOutcomes) : Option JJError :=
  match o.commitRes with
  | some e => some e
  | none =>
      match o.fetchRes with
      | some e => some e
      | none =>
          match (if o.hasRemoteChanges then o.mergeRes else none) with
          | some e => some e
          | none => o.pushRes

/-! ## Change debouncer (`src/services/autoCommit.ts`)

`AutoCommitService` holds `changeQueue : Set<string>`, `isProcessing` and
`retryCount`.  `processQueue` awaits, in order, `hasUncommittedChanges`
(never throws), `commit` and `push` (both rethrow `parseJJError`); its
`catch` delegates to `handleError`, whose `RemoteChanged` branch awaits
`autoPullService.pull()` (which catches internally and never throws) and a
second `push`, and whose `Conflict` branch awaits a second `commit` and a
`push`.  We index each VCS operation by how many calls of that operation the
cycle has already made, so a run of the service is a function of the
constants below, the configuration flag, and those call outcomes. -/

/-- `CONSTANTS.DEBOUNCE_DELAY` (ms) from `src/utils/constants.ts`. -/
def DEBOUNCE_DELAY : Nat := 60000

/-- `CONSTANTS.MAX_RETRY_COUNT` from `src/utils/constants.ts`. -/
def MAX_RETRY_COUNT : Nat := 3

/-- `CONSTANTS.RETRY_DELAY` (ms) from `src/utils/constants.ts`. -/
def RETRY_DELAY : Nat := 30000

/-- `CONSTANTS.AUTO_COMMIT_PREFIX` from `src/utils/constants.ts`. -/
def AUTO_COMMIT_PREFIX : String := "Auto-sync:"

/-- `CONSTANTS.CONFLICT_SUFFIX` from `src/utils/constants.ts`. -/
def CONFLICT_SUFFIX : String := "(conflict)"

/-- The `NotificationManager` calls `AutoCommitService` makes:
`networkError(retryCount)`, `networkError()` (no attempt number, on
abandonment) and the generic `error(...)`. -/
inductive Note where
  | networkRetry (attempt : Nat)
  | networkFinal
  | genericError
deriving DecidableEq, Repr

/-- The environment of one quiet-period cycle of `AutoCommitService`:
the configuration flag `jjj.autoSyncEnabled` (re-read on each
`processQueue` run; constant here), the timestamp used by
`generateCommitMessage`, and the outcome of the k-th call of each
`JJManager` operation (`none` = resolved, `some e` = threw `e`). -/
structure AcEnv where
  autoSyncEnabled : Bool
  timestamp : String
  hasUncommitted : Nat → Bool
  commitRes : Nat → Option JJError
  pushRes : Nat → Option JJError

/-- The observable state of `AutoCommitService` together with the call and
notification log of the cycle: `changeQueue`, `isProcessing`, `retryCount`
and the status-bar state are the service's fields; `statusChecks`,
`commitCalls`, `pushCalls`, `pullCalls` count the `JJManager` /
`AutoPullService` calls made so far; `commitMsgs` logs the commit messages;
`notes` logs the notifications; `retrySchedules` counts the
`scheduleOnce('auto-commit-retry', …, RETRY_DELAY)` calls and
`retryScheduled` flags a retry timer armed by the current run (consumed by
`runCycle`). -/
structure ACState where
  changeQueue : List String
  isProcessing : Bool
  retryCount : Nat
  status : SyncState
  statusChecks : Nat
  commitCalls : Nat
  pushCalls : Nat
  pullCalls : Nat
  commitMsgs : List String
  notes : List Note
  retrySchedules : Nat
  retryScheduled : Bool
deriving DecidableEq, Repr

/-- `AutoCommitService.generateCommitMessage()`:
`` `${CONSTANTS.AUTO_COMMIT_PREFIX} ${timestamp}` ``. -/
def generateCommitMessage (o : AcEnv) : String :=
  AUTO_COMMIT_PREFIX ++ " " ++ o.timestamp

/-- `AutoCommitService.handleError(error)`.  `Network`: increment
`retryCount`; at most `MAX_RETRY_COUNT` → notify the attempt number and arm
the `'auto-commit-retry'` one-shot timer, else notify, go `offline`, clear
the queue and reset the counter.  `RemoteChanged`: `pull()` then a second
`push`; success clears the queue and restores `enabled`, failure goes
`offline` (queue untouched).  `Conflict`: re-commit with the
conflict-suffixed message then `push`; success clears the queue and sets
`syncCompleteWithConflicts`, failure of either call goes `offline` (queue
untouched).  Anything else: generic notification, clear, reset, `enabled`. -/
def handleError (o : AcEnv) (e : JJError) (st : ACState) : ACState :=
  if isNetworkError e then
    let st := { st with retryCount := st.retryCount + 1 }
    if st.retryCount ≤ MAX_RETRY_COUNT then
      { st with notes := st.notes ++ [.networkRetry st.retryCount],
                retrySchedules := st.retrySchedules + 1, retryScheduled := true }
    else
      { st with notes := st.notes ++ [.networkFinal], status := .offline,
                changeQueue := [], retryCount := 0 }
  else if isRemoteChangedError e then
    let st := { st with pullCalls := st.pullCalls + 1 }
    let pres := o.pushRes st.pushCalls
    let st := { st with pushCalls := st.pushCalls + 1 }
    match pres with
    | none => { st with changeQueue := [], retryCount := 0, status := .enabled }
    | some _ => { st with status := .offline }
  else if isConflictError e then
    let msg := generateCommitMessage o ++ " " ++ CONFLICT_SUFFIX
    let cres := o.commitRes st.commitCalls
    let st := { st with commitCalls := st.commitCalls + 1,
                        commitMsgs := st.commitMsgs ++ [msg] }
    match cres with
    | some _ => { st with status := .offline }
    | none =>
        let pres := o.pushRes st.pushCalls
        let st := { st with pushCalls := st.pushCalls + 1 }
        match pres with
        | some _ => { st with status := .offline }
        | none => { st with changeQueue := [], retryCount := 0,
                            status := .syncCompleteWithConflicts }
  else
    { st with notes := st.notes ++ [.genericError], status := .enabled,
              changeQueue := [], retryCount := 0 }

/-- `AutoCommitService.processQueue()`: return immediately when a run is in
flight or the queue is empty; clear and exit when auto-sync was disabled in
the interim; otherwise set `isProcessing`, check for real changes (skip and
clear when none), set `syncing`, commit, push, and on success clear the
queue, reset `retryCount` and restore `enabled`; on a thrown error delegate
to `handleError`.  The `finally` clears `isProcessing`. -/
def processQueue (o : AcEnv) (st : ACState) : ACState :=
  if st.isProcessing || st.changeQueue.isEmpty then st
  else if !o.autoSyncEnabled then { st with changeQueue := [] }
  else
    let st := { st with isProcessing := true }
    let hasCh := o.hasUncommitted st.statusChecks
    let st := { st with statusChecks := st.statusChecks + 1 }
    let st :=
      if !hasCh then { st with changeQueue := [], retryCount := 0 }
      else
        let st := { st with status := .syncing }
        let msg := generateCommitMessage o
        let cres := o.commitRes st.commitCalls
        let st := { st with commitCalls := st.commitCalls + 1,
                            commitMsgs := st.commitMsgs ++ [msg] }
        match cres with
        | some e => handleError o e st
        | none =>
            let pres := o.pushRes st.pushCalls
            let st := { st with pushCalls := st.pushCalls + 1 }
            match pres with
            | some e => handleError o e st
            | none => { st with changeQueue := [], retryCount := 0,
                                status := .enabled }
    { st with isProcessing := false }

/-- Drives one quiet-period cycle: run `processQueue`, and as long as the run
armed an `'auto-commit-retry'` one-shot timer, fire it (which runs
`processQueue` again), up to `fuel` runs.  This is the event order of the
scheduler on the retry chain: each retry timer fires `RETRY_DELAY` ms later,
with no other timer pending. -/
def runCycle : Nat → AcEnv → ACState → ACState
  | 0, _, st => st
  | fuel + 1, o, st =>
      let st' := processQueue o st
      if st'.retryScheduled then runCycle fuel o { st' with retryScheduled := false }
      else st'

/-- The state of `AutoCommitService` at the start of a quiet-period cycle
with pending set `queue`: no run in flight, `retryCount` zero, status
`enabled`, empty logs. -/
def initAC (queue : List String) : ACState :=
  ⟨queue, false, 0, .enabled, 0, 0, 0, 0, [], [], 0, false⟩

/-- A concrete cycle environment: real changes present, commits succeed,
every push fails with a `Network`-classified error. -/
def envNetAlways : AcEnv :=
  ⟨true, "2024-06-01 12:00", fun _ => true, fun _ => none,
    fun _ => some ⟨.NETWORK_ERROR, "Connection refused"⟩⟩

/-- A concrete cycle environment: the first commit fails with a
`Conflict`-classified error, everything afterwards succeeds. -/
def envConflictOnce : AcEnv :=
  ⟨true, "2024-06-01 12:00", fun _ => true,
    fun k => if k = 0 then some ⟨.CONFLICT, "conflict detected during commit"⟩ else none,
    fun _ => none⟩

/-- A concrete cycle environment: the first push is rejected
(`RemoteChanged`), the pull succeeds, and the retried push fails. -/
def envRemoteFail : AcEnv :=
  ⟨true, "2024-06-01 12:00", fun _ => true, fun _ => none,
    fun k => if k = 0 then some ⟨.REMOTE_CHANGED, "rejected"⟩
             else some ⟨.NETWORK_ERROR, "timeout"⟩⟩

/-- A concrete cycle environment in which every VCS call would succeed. -/
def envAllOk : AcEnv :=
  ⟨true, "2024-06-01 12:00", fun _ => true, fun _ => none, fun _ => none⟩

/-! ## Debounce (`AutoCommitService.queueChange` + `TimerScheduler.scheduleOnce`)

`queueChange(file)` (with auto-sync enabled) adds `file.fsPath` to the
`changeQueue` set and re-arms the single `'auto-commit'` one-shot timer with
delay `DEBOUNCE_DELAY` — `scheduleOnce` first cancels any live timer under
the same key, so at most one `'auto-commit'` deadline is live.  We run the
system under a virtual clock: before each call the due timer (if any) fires,
and at the end of time the remaining timer fires.  The scheduler is not
paused, so a firing timer invokes its callback (`processQueue`); the model
records each firing as the pair (deadline, pending set at that moment).
A fired one-shot timer never re-arms itself, so recording is faithful. -/

/-- `Set.add` of JavaScript on an insertion-ordered duplicate-free list:
appends the element iff it is not yet present. -/
def setAdd (l : List String) (p : String) : List String :=
  if p ∈ l then l else l ++ [p]

/-- The debouncer under the virtual clock: the `changeQueue` set, the live
deadline of the `'auto-commit'` one-shot timer, and the record of quiet-period
firings (deadline, pending set at the fire). -/
structure DebState where
  changeQueue : List String
  timer : Option Nat
  fired : List (Nat × List String)
deriving DecidableEq, Repr

/-- Fire the `'auto-commit'` timer if its deadline has passed by time `t`:
the one-shot fires once, is removed, and the firing is recorded with the
pending set visible to `processQueue` at that moment. -/
def fireDue (t : Nat) (s : DebState) : DebState :=
  match s.timer with
  | some d => if d ≤ t then ⟨s.changeQueue, none, s.fired ++ [(d, s.changeQueue)]⟩ else s
  | none => s

/-- `AutoCommitService.queueChange(file)` at virtual time `t` with auto-sync
enabled: add the path to the set, cancel the live `'auto-commit'` timer and
arm a fresh one with deadline `t + DEBOUNCE_DELAY`. -/
def queueChange (t : Nat) (p : String) (s : DebState) : DebState :=
  ⟨setAdd s.changeQueue p, some (t + DEBOUNCE_DELAY), s.fired⟩

/-- Process a chronological list of `queueChange` calls `(time, path)` under
the virtual clock: timers due strictly before (or at) each call time fire
first. -/
def runCalls : List (Nat × String) → DebState → DebState
  | [], s => s
  | (t, p) :: rest, s => runCalls rest (queueChange t p (fireDue t s))

/-- After the last call, let all remaining time pass: the live timer, if any,
fires at its deadline. -/
def flushTimer (s : DebState) : DebState :=
  match s.timer with
  | some d => ⟨s.changeQueue, none, s.fired ++ [(d, s.changeQueue)]⟩
  | none => s

/-- A full debounce run from the idle state. -/
def runDebounce (calls : List (Nat × String)) : DebState :=
  flushTimer (runCalls calls ⟨[], none, []⟩)

/-- Chronology of a call sequence relative to the previous call time `t`:
each call happens no earlier than the previous one and strictly less than
`DEBOUNCE_DELAY` after it. -/
def gapsOk (t : Nat) : List (Nat × String) → Prop
  | [] => True
  | (t', _) :: rest => t ≤ t' ∧ t' < t + DEBOUNCE_DELAY ∧ gapsOk t' rest

/-- The time of the last call (`t` when there is none). -/
def lastTime (t : Nat) : List (Nat × String) → Nat
  | [] => t
  | (t', _) :: rest => lastTime t' rest

/-! ## Timer scheduler (`src/core/timerScheduler.ts`)

`TimerScheduler` keeps `timers : Map<string, NodeJS.Timeout>` and a `paused`
flag.  `scheduleOnce(id, cb, delay)` cancels any live timer under `id`
(`clearTimeout` + `Map.delete`) and registers a fresh `setTimeout` handle
under `id`.  When that timeout fires, the callback body runs: if `paused` it
returns at once — BEFORE the `this.timers.delete(id)` cleanup — otherwise it
awaits the callback inside `try`/`catch` (so the callback's outcome cannot
alter control flow) and then deletes `id` from the map.  We model the map as
a duplicate-free association list from key to timeout handle, and the native
timeout queue as a list of (handle, deadline). -/

/-- The scheduler state: the `timers` map (key ↦ timeout handle), the pending
native timeouts (handle, deadline), the `paused` flag and a fresh-handle
counter. -/
structure Scheduler where
  timers : List (String × Nat)
  pending : List (Nat × Nat)
  paused : Bool
  nextHandle : Nat
deriving DecidableEq, Repr

/-- The idle scheduler. -/
def Scheduler.empty : Scheduler := ⟨[], [], false, 0⟩

/-- `TimerScheduler.clearTimer(id)`: `clearTimeout` the handle registered
under `id` (dropping it from the native queue) and delete the map entry; a
missing key is a no-op. -/
def clearTimer (id : String) (s : Scheduler) : Scheduler :=
  match s.timers.lookup id with
  | none => s
  | some h =>
      { s with pending := s.pending.filter (fun q => !(q.1 = h : Bool)),
               timers := s.timers.filter (fun e => !(e.1 = id : Bool)) }

/-- `TimerScheduler.scheduleOnce(id, callback, delayMs)` at virtual time
`now`: clear any live timer under `id`, then register a fresh native timeout
with deadline `now + delayMs` under `id`. -/
def scheduleOnce (id : String) (delayMs now : Nat) (s : Scheduler) : Scheduler :=
  let s := clearTimer id s
  { s with pending := s.pending ++ [(s.nextHandle, now + delayMs)],
           timers := s.timers ++ [(id, s.nextHandle)],
           nextHandle := s.nextHandle + 1 }

/-- The body of the `setTimeout` closure of `scheduleOnce(id, …)` once its
delay has elapsed (the native timeout `h` leaves the queue as it fires):
when `paused`, log-and-return — skipping the `timers.delete(id)` — and
otherwise run the callback under `try`/`catch` (`cbFails` says whether it
threw; either way control reaches the cleanup) and delete `id` from the map. -/
def fireOneShot (id : String) (h : Nat) (cbFails : Bool) (s : Scheduler) : Scheduler :=
  let s := { s with pending := s.pending.filter (fun q => !(q.1 = h : Bool)) }
  if s.paused then s
  else
    let _ := cbFails
    { s with timers := s.timers.filter (fun e => !(e.1 = id : Bool)) }

/-- `TimerScheduler.pause()`. -/
def Scheduler.pause (s : Scheduler) : Scheduler := { s with paused := true }

/-- `TimerScheduler.getActiveTimerCount()`. -/
def getActiveTimerCount (s : Scheduler) : Nat := s.timers.length

/-- `TimerScheduler.getActiveTimerIds()`. -/
def getActiveTimerIds (s : Scheduler) : List String := s.timers.map Prod.fst

/-! ## Generic list facts used below -/

/-- A successful boolean prefix test exposes the list as the pattern followed
by a tail. -/
theorem isPrefixOf_exists : ∀ (p l : List Char), p.isPrefixOf l = true → ∃ t, l = p ++ t := by
  intro p
  induction p with
  | nil => intro l _; exact ⟨l, rfl⟩
  | cons c p ih =>
      intro l h
      cases l with
      | nil => simp [List.isPrefixOf] at h
      | cons c' l =>
          simp only [List.isPrefixOf, Bool.and_eq_true, beq_iff_eq] at h
          obtain ⟨t, ht⟩ := ih l h.2
          exact ⟨t, by simp [h.1, ht]⟩

/-- A pattern is a prefix of itself followed by anything. -/
theorem isPrefixOf_self_append : ∀ (p t : List Char), p.isPrefixOf (p ++ t) = true := by
  intro p
  induction p with
  | nil => intro t; simp [List.isPrefixOf]
  | cons c p ih => intro t; simp [List.isPrefixOf, ih]

/-! ## C4: scanner round-trip -/

/-- The scan finds nothing when no line opens a region, as long as no region
is already open. -/
theorem detectAux_eq_nil (fp : String) :
    ∀ (L : List (List Char)) (n : Nat) (s : Int),
      (∀ line ∈ L, ("<<<<<<<".data).isPrefixOf line = false) →
      detectAux fp L n false s = [] := by
  intro L
  induction L with
  | nil => intro n s _; rfl
  | cons line rest ih =>
      intro n s h
      have hline := h line (by simp)
      have hrest : ∀ l ∈ rest, ("<<<<<<<".data).isPrefixOf l = false :=
        fun l hl => h l (by simp [hl])
      simp [detectAux, hline, ih _ _ hrest]

/-- The existence check is false when no line carries a seven-glyph marker. -/
theorem hasMarkersAux_eq_false :
    ∀ (L : List (List Char)), (∀ line ∈ L, sevenGlyph line = false) →
      hasMarkersAux L = false := by
  intro L
  induction L with
  | nil => intro _; rfl
  | cons line rest ih =>
      intro h
      have hline := h line (by simp)
      have hrest : ∀ l ∈ rest, sevenGlyph l = false := fun l hl => h l (by simp [hl])
      cases rest with
      | nil => simp [hasMarkersAux, lineMatches, hline]
      | cons y t =>
          simp only [hasMarkersAux, lineMatches, hline, Bool.false_and, Bool.false_or]
          exact ih hrest

/-- A line starting with the seven glyphs and a space matches the marker
regex whatever its position. -/
theorem lineMatches_of_start_space (a : List Char)
    (h : ("<<<<<<< ".data).isPrefixOf a = true) : ∀ fl, lineMatches a fl = true := by
  obtain ⟨t, ht⟩ := isPrefixOf_exists _ _ h
  subst ht
  intro fl
  simp [lineMatches, sevenGlyph, isJsSpace, List.isPrefixOf]

/-- The existence check is true as soon as some line matches at every
position flag. -/
theorem hasMarkersAux_eq_true :
    ∀ (L : List (List Char)) (a : List Char), a ∈ L →
      (∀ fl, lineMatches a fl = true) → hasMarkersAux L = true := by
  intro L
  induction L with
  | nil => intro a ha _; simp at ha
  | cons x rest ih =>
      intro a ha hm
      cases rest with
      | nil =>
          have : a = x := by simpa using ha
          subst this
          simp [hasMarkersAux, hm true]
      | cons y t =>
          rcases (by simpa using ha : a = x ∨ a ∈ y :: t) with h | h
          · subst h; simp [hasMarkersAux, hm false]
          · simp [hasMarkersAux, ih a h hm]

/-- With a region open, the scan emits at least one region once a closing
marker line is still to come. -/
theorem detectAux_ne_nil_of_open (fp : String) :
    ∀ (l₂ : List (List Char)) (b : List Char) (l₃ : List (List Char)) (n : Nat) (s : Int),
      ((">>>>>>>".data).isPrefixOf b = true) →
      detectAux fp (l₂ ++ b :: l₃) n true s ≠ [] := by
  intro l₂
  induction l₂ with
  | nil =>
      intro b l₃ n s hb
      obtain ⟨t, ht⟩ := isPrefixOf_exists _ _ hb
      subst ht
      simp [detectAux, List.isPrefixOf]
  | cons line rest ih =>
      intro b l₃ n s hb
      by_cases h1 : ("<<<<<<<".data).isPrefixOf line = true
      · simpa [detectAux, h1] using ih b l₃ (n + 1) ((n : Int) + 1) hb
      · by_cases h2 : ((">>>>>>>".data).isPrefixOf line) = true
        · simp [detectAux, h1, h2]
        · simpa [detectAux, h1, h2] using ih b l₃ (n + 1) s hb

/-- The scan emits at least one region whenever an opening marker line is
eventually followed by a closing marker line, from any scanner state. -/
theorem detectAux_ne_nil (fp : String) :
    ∀ (l₁ : List (List Char)) (a : List Char) (l₂ : List (List Char)) (b : List Char)
      (l₃ : List (List Char)) (n : Nat) (inC : Bool) (s : Int),
      (("<<<<<<<".data).isPrefixOf a = true) →
      ((">>>>>>>".data).isPrefixOf b = true) →
      detectAux fp (l₁ ++ a :: l₂ ++ b :: l₃) n inC s ≠ [] := by
  intro l₁
  induction l₁ with
  | nil =>
      intro a l₂ b l₃ n inC s ha hb
      simpa [detectAux, ha] using detectAux_ne_nil_of_open fp l₂ b l₃ (n + 1) ((n : Int) + 1) hb
  | cons line rest ih =>
      intro a l₂ b l₃ n inC s ha hb
      by_cases h1 : ("<<<<<<<".data).isPrefixOf line = true
      · simpa [detectAux, h1] using ih a l₂ b l₃ (n + 1) true ((n : Int) + 1) ha hb
      · by_cases h2 : (((">>>>>>>".data).isPrefixOf line) && inC) = true
        · simp [detectAux, h1, h2]
        · simpa [detectAux, h1, h2] using ih a l₂ b l₃ (n + 1) inC s ha hb

/-- C4 (counterexample): the claimed equivalence
`hasConflictMarkers content = (detectConflictsInContent path content ≠ [])`
fails in both directions: a lone `=======` line satisfies the regex of
`hasConflictMarkers` but opens no region, and `<<<<<<<x` / `>>>>>>>x` lines
(no whitespace after the glyphs) form a region that the regex misses. -/
theorem C4_roundtrip_counterexample :
    hasConflictMarkers "=======\nok" = true ∧
    detectConflictsInContent "a.md" "=======\nok" = [] ∧
    hasConflictMarkers "<<<<<<<x\n>>>>>>>x" = false ∧
    detectConflictsInContent "a.md" "<<<<<<<x\n>>>>>>>x" ≠ [] := by
  refine ⟨by decide, by decide, by decide, by decide⟩

/-- C4 (amended): `hasConflictMarkers` agrees with non-emptiness of
`detectConflictsInContent` on marker-free content (no line begins with seven
`<`, `=` or `>` glyphs: both report absence) and on content containing a
well-formed pair of `<<<<<<< …` and `>>>>>>> …` marker lines with whitespace
after the glyphs (both report presence); on other inputs the two can
disagree in either direction. -/
theorem C4_scanner_roundtrip_amended (path content : String) :
    ((∀ line ∈ splitLines content, sevenGlyph line = false) →
      hasConflictMarkers content = false ∧ detectConflictsInContent path content = []) ∧
    (∀ (l₁ : List (List Char)) (a : List Char) (l₂ : List (List Char)) (b : List Char)
        (l₃ : List (List Char)),
      splitLines content = l₁ ++ a :: l₂ ++ b :: l₃ →
      ("<<<<<<< ".data).isPrefixOf a = true →
      (">>>>>>> ".data).isPrefixOf b = true →
      hasConflictMarkers content = true ∧ detectConflictsInContent path content ≠ []) := by
  constructor
  · intro h
    refine ⟨hasMarkersAux_eq_false _ h, detectAux_eq_nil path _ 0 (-1) ?_⟩
    intro line hl
    have h7 := h line hl
    simp only [sevenGlyph, Bool.or_eq_false_iff] at h7
    exact h7.1.1
  · intro l₁ a l₂ b l₃ hsplit ha hb
    have ha7 : ("<<<<<<<".data).isPrefixOf a = true := by
      obtain ⟨t, ht⟩ := isPrefixOf_exists _ _ ha
      subst ht
      exact isPrefixOf_self_append ("<<<<<<<".data) (' ' :: t)
    have hb7 : ((">>>>>>>".data)).isPrefixOf b = true := by
      obtain ⟨t, ht⟩ := isPrefixOf_exists _ _ hb
      subst ht
      exact isPrefixOf_self_append ((">>>>>>>".data)) (' ' :: t)
    constructor
    · have hmem : a ∈ splitLines content := by rw [hsplit]; simp
      exact hasMarkersAux_eq_true _ a hmem (lineMatches_of_start_space a ha)
    · rw [detectConflictsInContent, hsplit]
      exact detectAux_ne_nil path l₁ a l₂ b l₃ 0 false (-1) ha7 hb7

/-! ## C8: classifier case-insensitivity -/

/-- C8 (counterexample): classification is not invariant under lower-casing:
`'TIMEOUT'` misses the lower-case `'timeout'` pattern and falls through to
`UNKNOWN`, while its lower-cased form classifies as `NETWORK_ERROR`. -/
theorem C8_classifier_counterexample :
    (parseJJError "TIMEOUT").type = .UNKNOWN ∧
    jsToLowerCase "TIMEOUT" = "timeout" ∧
    (parseJJError "timeout").type = .NETWORK_ERROR ∧
    (parseJJError "TIMEOUT").type ≠ (parseJJError (jsToLowerCase "TIMEOUT")).type := by
  refine ⟨by decide, by decide, by decide, by decide⟩

/-- Mapping `Char.toLower` over a list it fixes pointwise is the identity. -/
theorem map_toLower_eq_self :
    ∀ (l : List Char), (∀ c ∈ l, c.toLower = c) → l.map Char.toLower = l := by
  intro l
  induction l with
  | nil => intro _; rfl
  | cons c l ih =>
      intro h
      simp only [List.map_cons, h c (by simp)]
      rw [ih fun d hd => h d (by simp [hd])]

/-- C8 (amended): `parseJJError` matches its substring patterns against the
raw failure text case-sensitively (only the Conflict category also tests the
upper-case `'CONFLICT'`), so classification is invariant under lower-casing
only on text that lower-casing leaves unchanged; in general
`parseJJError s` and `parseJJError (jsToLowerCase s)` differ. -/
theorem C8_classifier_case_amended (s : String)
    (h : ∀ c ∈ s.data, c.toLower = c) :
    parseJJError (jsToLowerCase s) = parseJJError s := by
  have : jsToLowerCase s = s := by
    show (⟨s.data.map Char.toLower⟩ : String) = s
    rw [map_toLower_eq_self s.data h]
  rw [this]

/-- C8 (witness): an already-lower-case failure text where lower-casing is
transparent to classification. -/
theorem C8_classifier_case_witness :
    parseJJError (jsToLowerCase "connection timeout") = parseJJError "connection timeout" :=
  C8_classifier_case_amended "connection timeout" (by decide)

/-! ## C9: fetch failure in pull -/

/-- C9 (counterexample): a fetch failure whose text classifies as `Conflict`
does not end in `Offline` — the shared `handleError` of `AutoPullService`
cannot tell which step threw and sends every `Conflict`-classified failure to
`syncCompleteWithConflicts`. -/
theorem C9_fetch_offline_counterexample :
    (parseJJError "conflict during fetch").type = .CONFLICT ∧
    pull ⟨some (parseJJError "conflict during fetch"), false, none⟩ .enabled =
      .syncCompleteWithConflicts ∧
    pull ⟨some (parseJJError "conflict during fetch"), false, none⟩ .enabled ≠ .offline := by
  refine ⟨by decide, by decide, by decide⟩

/-- C9 (amended): when the initial fetch of `pull()` fails, the failure is
never silently ignored — the status is always set — but the terminal status
is `Offline` only for non-`Conflict` classifications; a `Conflict`-classified
fetch failure sets `syncCompleteWithConflicts` instead. -/
theorem C9_fetch_failure_amended (e : JJError) (hrc : Bool) (mres : Option JJError)
    (st : SyncState) :
    pull ⟨some e, hrc, mres⟩ st =
      (if e.type = .CONFLICT then .syncCompleteWithConflicts else .offline) := by
  rcases e with ⟨t, m⟩
  cases t <;> simp [pull, pullHandleError, isConflictError]

/-- C9 (witness): a network-classified fetch failure ends `Offline`, and a
conflict-classified one ends `syncCompleteWithConflicts`. -/
theorem C9_fetch_failure_witness :
    pull ⟨some ⟨.NETWORK_ERROR, "Connection refused"⟩, true, none⟩ .enabled = .offline ∧
    pull ⟨some ⟨.CONFLICT, "conflict"⟩, true, none⟩ .enabled = .syncCompleteWithConflicts :=
  ⟨C9_fetch_failure_amended ⟨.NETWORK_ERROR, "Connection refused"⟩ true none .enabled,
    C9_fetch_failure_amended ⟨.CONFLICT, "conflict"⟩ true none .enabled⟩

/-! ## C5: manual full sync terminal status -/

/-- The status calls of the `try` body are exactly those of `handleSyncError`
applied to the first thrown error. -/
theorem fullSyncBody_eq (o : FullSyncOutcomes) (e : JJError)
    (h : fullSyncError o = some e) : fullSyncBody o = handleSyncError e := by
  unfold fullSyncError at h
  unfold fullSyncBody
  cases hc : o.commitRes with
  | some e1 => simp only [hc, Option.some.injEq] at h; rw [h]
  | none =>
      simp only [hc] at h ⊢
      cases hf : o.fetchRes with
      | some e1 => simp only [hf, Option.some.injEq] at h; rw [h]
      | none =>
          simp only [hf] at h ⊢
          cases hm : (if o.hasRemoteChanges then o.mergeRes else none) with
          | some e1 => simp only [hm, Option.some.injEq] at h; rw [h]
          | none =>
              simp only [hm] at h ⊢
              rw [h]

/-- C5 (counterexample): a `Network`-classified fetch failure during
`performFullSync` does not end in `Offline`: `handleSyncError` sets
`offline`, but the `finally` block then sets `enabled`, so the operation's
last status transition is `enabled`. -/
theorem C5_fullsync_counterexample :
    performFullSync ⟨true, none, some ⟨.NETWORK_ERROR, "Connection refused"⟩,
        false, none, none⟩ = [.syncing, .offline, .enabled] ∧
    (performFullSync ⟨true, none, some ⟨.NETWORK_ERROR, "Connection refused"⟩,
        false, none, none⟩).getLast? = some .enabled ∧
    (SyncState.enabled ≠ SyncState.offline) := by
  refine ⟨by decide, by decide, by decide⟩

/-- C5 (amended): a failed `performFullSync` always performs the §4.4-style
terminal transition — `offline` on a `Network`-classified failure,
`syncCompleteWithConflicts` on a `Conflict`-classified one, with no retry
loop — but the `finally` block then restores `enabled`, so that transition
is followed by a final `enabled` and is not the state the operation ends
in. -/
theorem C5_fullsync_terminal_amended (o : FullSyncOutcomes) (e : JJError)
    (h1 : o.hasUncommittedChanges = true) (h2 : fullSyncError o = some e) :
    (e.type = .NETWORK_ERROR → performFullSync o = [.syncing, .offline, .enabled]) ∧
    (e.type = .CONFLICT →
      performFullSync o = [.syncing, .syncCompleteWithConflicts, .enabled]) := by
  have hb := fullSyncBody_eq o e h2
  constructor <;> intro ht <;> simp [performFullSync, h1, hb, handleSyncError, ht]

/-- C5 (witness): the amended behaviour at a concrete run whose fetch fails
with a network error. -/
theorem C5_fullsync_witness :
    performFullSync ⟨true, none, some ⟨.NETWORK_ERROR, "Could not resolve host"⟩,
        true, none, none⟩ = [.syncing, .offline, .enabled] :=
  (C5_fullsync_terminal_amended
    ⟨true, none, some ⟨.NETWORK_ERROR, "Could not resolve host"⟩, true, none, none⟩
    ⟨.NETWORK_ERROR, "Could not resolve host"⟩ rfl rfl).1 rfl

/-- C4 (witness): the amended agreement at concrete inputs — a well-formed
conflict block is seen by both functions, and marker-free text by neither. -/
theorem C4_roundtrip_witness :
    (hasConflictMarkers "<<<<<<< a\nb\n>>>>>>> c" = true ∧
      detectConflictsInContent "f.md" "<<<<<<< a\nb\n>>>>>>> c" ≠ []) ∧
    (hasConflictMarkers "plain text\nno markers" = false ∧
      detectConflictsInContent "f.md" "plain text\nno markers" = []) :=
  ⟨(C4_scanner_roundtrip_amended "f.md" "<<<<<<< a\nb\n>>>>>>> c").2
      [] ("<<<<<<< a".data) ["b".data] (">>>>>>> c".data) []
      (by decide) (by decide) (by decide),
    (C4_scanner_roundtrip_amended "f.md" "plain text\nno markers").1 (by decide)⟩

/-! ## C10: quiet-period handler re-entrancy guard -/

/-- C10: `processQueue` invoked while a run is in flight (`isProcessing`) or
with an empty pending set returns immediately: no VCS call is made and the
pending set, retry counter and status are untouched (the state is returned
unchanged). -/
theorem C10_reentrancy_guard (o : AcEnv) (st : ACState)
    (h : st.isProcessing = true ∨ st.changeQueue = []) :
    processQueue o st = st := by
  rcases h with h | h <;> simp [processQueue, h]

/-- C10 (witness): a second `processQueue` during an in-flight run changes
nothing. -/
theorem C10_reentrancy_witness :
    processQueue envAllOk ⟨["a.txt"], true, 0, .syncing, 1, 0, 0, 0, [], [], 0, false⟩ =
      ⟨["a.txt"], true, 0, .syncing, 1, 0, 0, 0, [], [], 0, false⟩ :=
  C10_reentrancy_guard envAllOk _ (Or.inl rfl)

/-! ## C7: one-shot timer removal -/

/-- C7 (counterexample): a one-shot timer that fires while the scheduler is
paused is NOT removed — the paused early-return happens before the
`timers.delete(id)` cleanup, so the key stays registered. -/
theorem C7_oneshot_counterexample :
    getActiveTimerCount (fireOneShot "auto-commit" 0 false
      (Scheduler.pause (scheduleOnce "auto-commit" 60000 0 Scheduler.empty))) = 1 ∧
    getActiveTimerIds (fireOneShot "auto-commit" 0 false
      (Scheduler.pause (scheduleOnce "auto-commit" 60000 0 Scheduler.empty))) =
      ["auto-commit"] := by
  refine ⟨by decide, by decide⟩

/-- C7 (amended): when a fired one-shot timer actually runs its callback
(scheduler not paused), its key is removed from the active set whether the
callback succeeded or threw; but when the scheduler is paused at the fire,
the callback is skipped and the `timers` map is left untouched, so the key
remains active. -/
theorem C7_oneshot_removal_amended (s : Scheduler) (id : String) (h : Nat)
    (cbFails : Bool) :
    (s.paused = false → id ∉ getActiveTimerIds (fireOneShot id h cbFails s)) ∧
    (s.paused = true → (fireOneShot id h cbFails s).timers = s.timers) := by
  constructor
  · intro hp hmem
    simp only [getActiveTimerIds, fireOneShot, hp, Bool.false_eq_true, if_false] at hmem
    rcases List.mem_map.1 hmem with ⟨⟨k, v⟩, hk, hfst⟩
    rcases List.mem_filter.1 hk with ⟨_, hcond⟩
    simp only at hfst
    subst hfst
    simp at hcond
  · intro hp
    simp [fireOneShot, hp]

/-- C7 (witness): an unpaused fire removes the key even when the callback
throws. -/
theorem C7_oneshot_removal_witness :
    "auto-commit" ∉ getActiveTimerIds
      (fireOneShot "auto-commit" 0 true (scheduleOnce "auto-commit" 60000 0 Scheduler.empty)) :=
  (C7_oneshot_removal_amended (scheduleOnce "auto-commit" 60000 0 Scheduler.empty)
    "auto-commit" 0 true).1 rfl

/-! ## C6: pending-set clearing -/

/-- `handleError` either clears the pending set or leaves it as it was. -/
theorem handleError_queue_all_or_nothing (o : AcEnv) (e : JJError) (st : ACState) :
    (handleError o e st).changeQueue = [] ∨
      (handleError o e st).changeQueue = st.changeQueue := by
  by_cases hn : isNetworkError e = true
  · by_cases hr : st.retryCount + 1 ≤ MAX_RETRY_COUNT
    · right; simp [handleError, hn, hr]
    · left; simp [handleError, hn, hr]
  · by_cases hrm : isRemoteChangedError e = true
    · cases hp : o.pushRes st.pushCalls with
      | none => left; simp [handleError, hn, hrm, hp]
      | some e2 => right; simp [handleError, hn, hrm, hp]
    · by_cases hc : isConflictError e = true
      · cases hcc : o.commitRes st.commitCalls with
        | some e2 => right; simp [handleError, hn, hrm, hc, hcc]
        | none =>
            cases hp : o.pushRes st.pushCalls with
            | some e2 => right; simp [handleError, hn, hrm, hc, hcc, hp]
            | none => left; simp [handleError, hn, hrm, hc, hcc, hp]
      · left; simp [handleError, hn, hrm, hc]

/-- C6 (amended): the pending set is never partially drained — one
`processQueue` run either clears it (successful push, no-real-changes skip,
disabled-in-the-interim skip, network abandonment, or a non-retryable
failure) or leaves it exactly as it was (guarded return, under-ceiling
network retry, and the `Offline` failure paths of the `RemoteChanged` and
`Conflict` branches, which do NOT clear it). -/
theorem C6_pending_all_or_nothing (o : AcEnv) (st : ACState) :
    (processQueue o st).changeQueue = [] ∨
      (processQueue o st).changeQueue = st.changeQueue := by
  by_cases h1 : (st.isProcessing || st.changeQueue.isEmpty) = true
  · right; simp [processQueue, h1]
  · by_cases h2 : o.autoSyncEnabled = true
    · cases hhc : o.hasUncommitted st.statusChecks with
      | false => left; simp [processQueue, h1, h2, hhc]
      | true =>
          cases hc : o.commitRes st.commitCalls with
          | some e =>
              simp only [processQueue, h1, h2, hhc, hc, Bool.false_eq_true, if_false,
                Bool.not_true, Bool.not_false, if_true]
              exact (handleError_queue_all_or_nothing o e _).imp id id
          | none =>
              cases hp : o.pushRes st.pushCalls with
              | some e =>
                  simp only [processQueue, h1, h2, hhc, hc, hp, Bool.false_eq_true,
                    if_false, Bool.not_true, Bool.not_false, if_true]
                  exact (handleError_queue_all_or_nothing o e _).imp id id
              | none => left; simp [processQueue, h1, h2, hhc, hc, hp]
    · left; simp [processQueue, h1, h2]

/-! ## C1: debounce -/

/-- Membership in the set after a JavaScript `Set.add`. -/
theorem mem_setAdd (l : List String) (p x : String) :
    x ∈ setAdd l p ↔ x ∈ l ∨ x = p := by
  by_cases h : p ∈ l
  · simp only [setAdd, if_pos h]
    constructor
    · exact Or.inl
    · rintro (hx | rfl)
      · exact hx
      · exact h
  · simp [setAdd, h]

/-- `Set.add` keeps the backing list duplicate-free. -/
theorem nodup_setAdd (l : List String) (p : String) (h : l.Nodup) :
    (setAdd l p).Nodup := by
  by_cases hp : p ∈ l
  · simpa [setAdd, hp] using h
  · simp [setAdd, hp, List.nodup_append, h]

/-- Membership in a fold of `Set.add` over queued calls. -/
theorem mem_foldl_setAdd :
    ∀ (ps : List (Nat × String)) (acc : List String) (x : String),
      x ∈ ps.foldl (fun q pr => setAdd q pr.2) acc ↔ x ∈ acc ∨ x ∈ ps.map Prod.snd := by
  intro ps
  induction ps with
  | nil => intro acc x; simp
  | cons p rest ih =>
      intro acc x
      rw [List.foldl_cons, ih]
      rw [mem_setAdd]
      simp only [List.map_cons, List.mem_cons]
      tauto

/-- A fold of `Set.add` keeps the backing list duplicate-free. -/
theorem nodup_foldl_setAdd :
    ∀ (ps : List (Nat × String)) (acc : List String), acc.Nodup →
      (ps.foldl (fun q pr => setAdd q pr.2) acc).Nodup := by
  intro ps
  induction ps with
  | nil => intro acc h; exact h
  | cons p rest ih => intro acc h; exact ih _ (nodup_setAdd acc p.2 h)

/-- The debounce invariant: with a live deadline `t + DEBOUNCE_DELAY` and
every further call within the quiet period of its predecessor, no timer
fires during the calls — each call only accumulates its path and pushes the
single deadline back to its own time plus the quiet period. -/
theorem runCalls_inv :
    ∀ (calls : List (Nat × String)) (t : Nat) (Q : List String)
      (F : List (Nat × List String)),
      gapsOk t calls →
      runCalls calls ⟨Q, some (t + DEBOUNCE_DELAY), F⟩ =
        ⟨calls.foldl (fun q pr => setAdd q pr.2) Q,
          some (lastTime t calls + DEBOUNCE_DELAY), F⟩ := by
  intro calls
  induction calls with
  | nil => intro t Q F _; rfl
  | cons c rest ih =>
      rcases c with ⟨t', p⟩
      intro t Q F hg
      obtain ⟨h1, h2, h3⟩ := hg
      have hnd : ¬(t + DEBOUNCE_DELAY ≤ t') := Nat.not_le.2 h2
      have hfire : fireDue t' ⟨Q, some (t + DEBOUNCE_DELAY), F⟩ =
          ⟨Q, some (t + DEBOUNCE_DELAY), F⟩ := by
        simp [fireDue, hnd]
      show runCalls rest (queueChange t' p (fireDue t' ⟨Q, some (t + DEBOUNCE_DELAY), F⟩)) = _
      rw [hfire]
      show runCalls rest ⟨setAdd Q p, some (t' + DEBOUNCE_DELAY), F⟩ = _
      rw [ih t' (setAdd Q p) F h3]
      rfl

/-- C1: for a nonempty sequence of `queueChange` calls (auto-sync enabled,
scheduler unpaused) in which each call comes no earlier than its predecessor
and strictly less than the quiet period after it, the quiet-period handler
fires exactly once, at the last call time plus `DEBOUNCE_DELAY`, and the
pending set at that moment is the union of all queued paths with duplicates
collapsed (same members, no duplicates). -/
theorem C1_debounce (t0 : Nat) (p0 : String) (rest : List (Nat × String))
    (hg : gapsOk t0 rest) :
    ∃ S : List String,
      runDebounce ((t0, p0) :: rest) =
        ⟨S, none, [(lastTime t0 rest + DEBOUNCE_DELAY, S)]⟩ ∧
      (∀ x, x ∈ S ↔ x ∈ ((t0, p0) :: rest).map Prod.snd) ∧ S.Nodup := by
  refine ⟨rest.foldl (fun q pr => setAdd q pr.2) (setAdd [] p0), ?_, ?_, ?_⟩
  · show flushTimer (runCalls rest ⟨setAdd [] p0, some (t0 + DEBOUNCE_DELAY), []⟩) = _
    rw [runCalls_inv rest t0 (setAdd [] p0) [] hg]
    rfl
  · intro x
    rw [mem_foldl_setAdd]
    rw [mem_setAdd]
    simp only [List.map_cons, List.mem_cons, List.not_mem_nil, false_or]
    try tauto
  · exact nodup_foldl_setAdd _ _ (nodup_setAdd [] p0 (by simp))

/-- C1 (witness): the §8 scenario — `a.txt` queued at t = 0, `b.txt` at
t = 30000; the handler fires once, at t = 90000, with `{a.txt, b.txt}`. -/
theorem C1_debounce_witness :
    ∃ S : List String,
      runDebounce [(0, "a.txt"), (30000, "b.txt")] = ⟨S, none, [(90000, S)]⟩ ∧
      (∀ x, x ∈ S ↔ x ∈ ["a.txt", "b.txt"]) ∧ S.Nodup := by
  have h := C1_debounce 0 "a.txt" [(30000, "b.txt")]
    (by norm_num [gapsOk, DEBOUNCE_DELAY])
  simpa [lastTime, DEBOUNCE_DELAY] using h

/-! ## C2: retry ceiling -/

/-- A run that arms the retry timer makes the cycle continue with the flag
consumed. -/
theorem runCycle_step_retry (n : Nat) (o : AcEnv) (st st' : ACState)
    (h : processQueue o st = st') (hr : st'.retryScheduled = true) :
    runCycle (n + 1) o st = runCycle n o { st' with retryScheduled := false } := by
  subst h
  simp [runCycle, hr]

/-- A run that arms no retry timer ends the cycle. -/
theorem runCycle_step_stop (n : Nat) (o : AcEnv) (st st' : ACState)
    (h : processQueue o st = st') (hr : st'.retryScheduled = false) :
    runCycle (n + 1) o st = st' := by
  subst h
  simp [runCycle, hr]

/-- One `processQueue` run whose push fails with a `Network`-classified error
while still under the retry ceiling: the retry counter is incremented, the
attempt number is notified, the retry timer is armed, and the pending set is
kept. -/
theorem processQueue_network_retry (o : AcEnv) (st : ACState) (e : JJError)
    (hen : o.autoSyncEnabled = true)
    (hip : st.isProcessing = false)
    (hq : st.changeQueue.isEmpty = false)
    (hhc : o.hasUncommitted st.statusChecks = true)
    (hc : o.commitRes st.commitCalls = none)
    (hp : o.pushRes st.pushCalls = some e)
    (he : e.type = .NETWORK_ERROR)
    (hr : st.retryCount + 1 ≤ MAX_RETRY_COUNT) :
    processQueue o st =
      { st with isProcessing := false, status := .syncing,
                statusChecks := st.statusChecks + 1,
                commitCalls := st.commitCalls + 1,
                pushCalls := st.pushCalls + 1,
                commitMsgs := st.commitMsgs ++ [generateCommitMessage o],
                retryCount := st.retryCount + 1,
                notes := st.notes ++ [.networkRetry (st.retryCount + 1)],
                retrySchedules := st.retrySchedules + 1,
                retryScheduled := true } := by
  have hn : isNetworkError e = true := by simp [isNetworkError, he]
  simp [processQueue, handleError, hip, hq, hen, hhc, hc, hp, hn, hr]

/-- One `processQueue` run whose push fails with a `Network`-classified error
past the retry ceiling: abandon — final notification, `offline`, pending set
cleared, retry counter reset, no timer armed. -/
theorem processQueue_network_abandon (o : AcEnv) (st : ACState) (e : JJError)
    (hen : o.autoSyncEnabled = true)
    (hip : st.isProcessing = false)
    (hq : st.changeQueue.isEmpty = false)
    (hhc : o.hasUncommitted st.statusChecks = true)
    (hc : o.commitRes st.commitCalls = none)
    (hp : o.pushRes st.pushCalls = some e)
    (he : e.type = .NETWORK_ERROR)
    (hr : ¬(st.retryCount + 1 ≤ MAX_RETRY_COUNT)) :
    processQueue o st =
      { st with isProcessing := false, status := .offline,
                statusChecks := st.statusChecks + 1,
                commitCalls := st.commitCalls + 1,
                pushCalls := st.pushCalls + 1,
                commitMsgs := st.commitMsgs ++ [generateCommitMessage o],
                changeQueue := [],
                retryCount := 0,
                notes := st.notes ++ [.networkFinal] } := by
  have hn : isNetworkError e = true := by simp [isNetworkError, he]
  simp [processQueue, handleError, hip, hq, hen, hhc, hc, hp, hn, hr]

/-- C2: with real changes present and every push failing with a
`Network`-classified error, the quiet-period cycle makes the initial attempt
plus exactly `MAX_RETRY_COUNT = 3` scheduled retries, notifying attempt
numbers 1, 2, 3 and then the final network notification, and settles with
the pending set cleared, the retry counter reset to zero and status
`offline`, with no further retry armed. -/
theorem C2_retry_ceiling (o : AcEnv) (q : List String)
    (hen : o.autoSyncEnabled = true)
    (hq : q.isEmpty = false)
    (hhc : ∀ k, o.hasUncommitted k = true)
    (hc : ∀ k, o.commitRes k = none)
    (hp : ∀ k, ∃ e, o.pushRes k = some e ∧ e.type = .NETWORK_ERROR) :
    runCycle 5 o (initAC q) =
      ⟨[], false, 0, .offline, 4, 4, 4, 0,
        [generateCommitMessage o, generateCommitMessage o, generateCommitMessage o,
          generateCommitMessage o],
        [.networkRetry 1, .networkRetry 2, .networkRetry 3, .networkFinal], 3, false⟩ := by
  obtain ⟨e0, hp0, ht0⟩ := hp 0
  obtain ⟨e1, hp1, ht1⟩ := hp 1
  obtain ⟨e2, hp2, ht2⟩ := hp 2
  obtain ⟨e3, hp3, ht3⟩ := hp 3
  have s1 : processQueue o (initAC q) =
      ⟨q, false, 1, .syncing, 1, 1, 1, 0, [generateCommitMessage o],
        [.networkRetry 1], 1, true⟩ :=
    processQueue_network_retry o (initAC q) e0 hen rfl hq (hhc 0) (hc 0) hp0 ht0
      (by norm_num [initAC, MAX_RETRY_COUNT])
  have s2 : processQueue o
      ⟨q, false, 1, .syncing, 1, 1, 1, 0, [generateCommitMessage o],
        [.networkRetry 1], 1, false⟩ =
      ⟨q, false, 2, .syncing, 2, 2, 2, 0,
        [generateCommitMessage o, generateCommitMessage o],
        [.networkRetry 1, .networkRetry 2], 2, true⟩ :=
    processQueue_network_retry o _ e1 hen rfl hq (hhc 1) (hc 1) hp1 ht1
      (by norm_num [MAX_RETRY_COUNT])
  have s3 : processQueue o
      ⟨q, false, 2, .syncing, 2, 2, 2, 0,
        [generateCommitMessage o, generateCommitMessage o],
        [.networkRetry 1, .networkRetry 2], 2, false⟩ =
      ⟨q, false, 3, .syncing, 3, 3, 3, 0,
        [generateCommitMessage o, generateCommitMessage o, generateCommitMessage o],
        [.networkRetry 1, .networkRetry 2, .networkRetry 3], 3, true⟩ :=
    processQueue_network_retry o _ e2 hen rfl hq (hhc 2) (hc 2) hp2 ht2
      (by norm_num [MAX_RETRY_COUNT])
  have s4 : processQueue o
      ⟨q, false, 3, .syncing, 3, 3, 3, 0,
        [generateCommitMessage o, generateCommitMessage o, generateCommitMessage o],
        [.networkRetry 1, .networkRetry 2, .networkRetry 3], 3, false⟩ =
      ⟨[], false, 0, .offline, 4, 4, 4, 0,
        [generateCommitMessage o, generateCommitMessage o, generateCommitMessage o,
          generateCommitMessage o],
        [.networkRetry 1, .networkRetry 2, .networkRetry 3, .networkFinal], 3, false⟩ :=
    processQueue_network_abandon o _ e3 hen rfl hq (hhc 3) (hc 3) hp3 ht3
      (by norm_num [MAX_RETRY_COUNT])
  have r1 := runCycle_step_retry 4 o _ _ s1 rfl
  have r2 := runCycle_step_retry 3 o _ _ s2 rfl
  have r3 := runCycle_step_retry 2 o _ _ s3 rfl
  have r4 := runCycle_step_stop 1 o _ _ s4 rfl
  rw [show (5 : Nat) = 4 + 1 from rfl, r1]
  rw [show (4 : Nat) = 3 + 1 from rfl, r2]
  rw [show (3 : Nat) = 2 + 1 from rfl, r3]
  rw [show (2 : Nat) = 1 + 1 from rfl, r4]

/-- C2 (witness): the full retry ceiling at a concrete environment. -/
theorem C2_retry_ceiling_witness :
    runCycle 5 envNetAlways (initAC ["a.txt"]) =
      ⟨[], false, 0, .offline, 4, 4, 4, 0,
        ["Auto-sync: 2024-06-01 12:00", "Auto-sync: 2024-06-01 12:00",
          "Auto-sync: 2024-06-01 12:00", "Auto-sync: 2024-06-01 12:00"],
        [.networkRetry 1, .networkRetry 2, .networkRetry 3, .networkFinal], 3, false⟩ := by
  simpa using C2_retry_ceiling envNetAlways ["a.txt"] rfl rfl (fun _ => rfl) (fun _ => rfl)
    (fun _ => ⟨⟨.NETWORK_ERROR, "Connection refused"⟩, rfl, rfl⟩)

/-! ## C3: conflict-through-commit -/

/-- C3: when the first commit of a quiet-period cycle fails with a
`Conflict`-classified error and the conflict-suffixed re-commit and the push
succeed, the cycle ends in `syncCompleteWithConflicts` with the commit
operation invoked exactly twice (the second time with the conflict-suffixed
message), the push exactly once, the pending set cleared and `retryCount`
reset to zero; and if the second attempt (re-commit or push) fails, the
status becomes `offline`. -/
theorem C3_conflict_through_commit (o : AcEnv) (st : ACState) (e : JJError)
    (hen : o.autoSyncEnabled = true)
    (hip : st.isProcessing = false)
    (hq : st.changeQueue.isEmpty = false)
    (hhc : o.hasUncommitted st.statusChecks = true)
    (hc0 : o.commitRes st.commitCalls = some e)
    (he : e.type = .CONFLICT) :
    ((o.commitRes (st.commitCalls + 1) = none ∧ o.pushRes st.pushCalls = none) →
      processQueue o st =
        { st with changeQueue := [], isProcessing := false, retryCount := 0,
                  status := .syncCompleteWithConflicts,
                  statusChecks := st.statusChecks + 1,
                  commitCalls := st.commitCalls + 2,
                  pushCalls := st.pushCalls + 1,
                  commitMsgs := st.commitMsgs ++ [generateCommitMessage o,
                    generateCommitMessage o ++ " " ++ CONFLICT_SUFFIX] }) ∧
    (∀ e2, (o.commitRes (st.commitCalls + 1) = some e2 ∨
        (o.commitRes (st.commitCalls + 1) = none ∧ o.pushRes st.pushCalls = some e2)) →
      (processQueue o st).status = .offline) := by
  have hn : isNetworkError e = false := by simp [isNetworkError, he]
  have hrm : isRemoteChangedError e = false := by simp [isRemoteChangedError, he]
  have hcf : isConflictError e = true := by simp [isConflictError, he]
  constructor
  · rintro ⟨h1, h2⟩
    simp [processQueue, handleError, hip, hq, hen, hhc, hc0, hn, hrm, hcf, h1, h2]
  · rintro e2 (h1 | ⟨h1, h2⟩)
    · simp [processQueue, handleError, hip, hq, hen, hhc, hc0, hn, hrm, hcf, h1]
    · simp [processQueue, handleError, hip, hq, hen, hhc, hc0, hn, hrm, hcf, h1, h2]

/-- C3 (witness): the conflict-through-commit cycle at a concrete
environment: two commits (the second conflict-suffixed), one push, cleared
set, `retryCount` zero, `syncCompleteWithConflicts`. -/
theorem C3_conflict_witness :
    processQueue envConflictOnce (initAC ["a.txt"]) =
      ⟨[], false, 0, .syncCompleteWithConflicts, 1, 2, 1, 0,
        ["Auto-sync: 2024-06-01 12:00", "Auto-sync: 2024-06-01 12:00 (conflict)"],
        [], 0, false⟩ := by
  simpa using (C3_conflict_through_commit envConflictOnce (initAC ["a.txt"])
    ⟨.CONFLICT, "conflict detected during commit"⟩ rfl rfl rfl rfl rfl rfl).1 ⟨rfl, rfl⟩

/-- C6 (counterexample): a cycle whose push is rejected (`RemoteChanged`)
and whose pull-then-retry push also fails terminates in `Offline` with the
pending set NOT empty — the `RemoteChanged` failure path does not clear it. -/
theorem C6_pending_counterexample :
    processQueue envRemoteFail (initAC ["a.txt"]) =
      ⟨["a.txt"], false, 0, .offline, 1, 1, 2, 1, ["Auto-sync: 2024-06-01 12:00"],
        [], 0, false⟩ ∧
    (["a.txt"] : List String) ≠ [] := by
  refine ⟨by decide, by decide⟩

end Jjj
